import Mathlib

/-!
Shallow embedding of the NeuroCrawler dataset-reference extraction and
download engine, together with proofs about it.

Sources embedded:
  src/utils/data_utils.py          (DataDownloader)
  src/utils/dataset_downloader.py  (DatasetDownloadManager)
  src/direct_download.py           (FigshareDownloader)
  src/parsers/dataset_extractor.py (DatasetExtractor)
  src/collectors/base_collector.py (BaseCollector)

Python strings are modelled as Lean String (code-point sequences), dicts
with a fixed key set as structures whose fields use the PyStr type below
to distinguish an absent key, a key bound to None, and a key bound to a
string.  Wall-clock timestamps, file contents on disk and the md5 hash
function are not computed; where a definition needs them it takes them as
explicit parameters, noted in its doc comment.
-/

namespace NeuroCrawler

/-- A string-valued slot of a Python dict: the key can be absent, bound to
None, or bound to a str. -/
inductive PyStr where
  | absent
  | pynone
  | str (s : String)
deriving DecidableEq, Repr

/-- Python truthiness of a string slot: absent and None and the empty
string are falsy, every other string is truthy. -/
def pyTruthy : PyStr → Bool
  | PyStr.str s => !(s == "")
  | _ => false

/-- Models str(d.get(key, default)): an absent key gives the default, a
key bound to None gives the string "None" (Python str(None)), and a key
bound to a string gives that string. -/
def pyStrOf (default : String) : PyStr → String
  | PyStr.absent => default
  | PyStr.pynone => "None"
  | PyStr.str s => s

/-- Models d.get(key) with no default: an absent key reads as None. -/
def pyGet : PyStr → PyStr
  | PyStr.absent => PyStr.pynone
  | x => x

/-- The string carried by a truthy slot (unused on falsy slots). -/
def pyVal : PyStr → String
  | PyStr.str s => s
  | _ => ""

/-- A dataset-reference dict as built by DatasetExtractor and consumed by
the downloaders.  Fields mirror the dict keys used in the source; keys a
given code path never writes stay at their default, absent.  The
extracted_at wall-clock field of BaseCollector.extract_datasets is not
modelled. -/
structure Dataset where
  name : PyStr := PyStr.absent
  url : PyStr := PyStr.absent
  repository : PyStr := PyStr.absent
  doi : PyStr := PyStr.absent
  accession : PyStr := PyStr.absent
  found_in : PyStr := PyStr.absent
  source : PyStr := PyStr.absent
  data_types : Option (List String) := Option.none
  paper_title : PyStr := PyStr.absent
  paper_url : PyStr := PyStr.absent
  paper_doi : PyStr := PyStr.absent
deriving DecidableEq, Repr

/-! ## Filename sanitization (three copies in the source)

DataDownloader._sanitize_filename   (src/utils/data_utils.py:737-764)
DatasetDownloadManager._sanitize_filename (src/utils/dataset_downloader.py:629-640)
FigshareDownloader._sanitize_filename (src/direct_download.py:342-353)
-/

/-- The characters every _sanitize_filename copy replaces with an
underscore. -/
def illegalChars : List Char := ['<', '>', ':', '"', '/', '\\', '|', '?', '*']

def replaceIllegal (c : Char) : Char := if c ∈ illegalChars then '_' else c

/-- Index of the last dot of a bare filename, if any. -/
def lastDotIdx (cs : List Char) : Option Nat :=
  match cs.reverse.findIdx? (fun c => c == '.') with
  | Option.none => Option.none
  | some k => some (cs.length - 1 - k)

/-- os.path.splitext restricted to a bare filename (no path separators,
which sanitization has already replaced): the extension starts at the last
dot, unless every character before that dot is itself a dot, in which case
there is no extension. -/
def splitext (cs : List Char) : List Char × List Char :=
  match lastDotIdx cs with
  | Option.none => (cs, [])
  | some d =>
    if (cs.take d).any (fun c => c != '.') then (cs.take d, cs.drop d) else (cs, [])

/-- DataDownloader._sanitize_filename on the character list: replace the
illegal characters, then if the result exceeds 100 characters split off
the extension, truncate an abnormally long extension to 10 characters,
and truncate the base so that base plus extension fits in 100. -/
def sanitizeDUList (cs0 : List Char) : List Char :=
  let cs := cs0.map replaceIllegal
  if cs.length > 100 then
    let be := splitext cs
    let ext := if be.2.length > 10 then be.2.take 10 else be.2
    be.1.take (100 - ext.length) ++ ext
  else cs

/-- The simpler copy shared by DatasetDownloadManager and
FigshareDownloader: replace the illegal characters, then truncate to 100
characters. -/
def sanitizeSimpleList (cs0 : List Char) : List Char :=
  let cs := cs0.map replaceIllegal
  if cs.length > 100 then cs.take 100 else cs

def DataDownloader.sanitize_filename (s : String) : String :=
  String.mk (sanitizeDUList s.data)

def DatasetDownloadManager.sanitize_filename (s : String) : String :=
  String.mk (sanitizeSimpleList s.data)

def FigshareDownloader.sanitize_filename (s : String) : String :=
  String.mk (sanitizeSimpleList s.data)

/-! ## Repository classification

DatasetExtractor._identify_repository (src/parsers/dataset_extractor.py:299-307)
with its rule table data_repositories (lines 18-45), and
DatasetDownloadManager._detect_repository (src/utils/dataset_downloader.py:295-324).
Every pattern in both tables is an alternation of literal strings, so
re.search of a pattern is exactly a substring test for one of the
alternatives. -/

/-- Python str.lower() over ASCII, defined over the character list so
that it reduces in the kernel. -/
def pyLower (s : String) : String := String.mk (s.data.map Char.toLower)

/-- Does the pattern list occur as a contiguous sublist of the haystack? -/
def containsSub (hay pat : List Char) : Bool :=
  (List.range (hay.length + 1)).any (fun i => pat.isPrefixOf (hay.drop i))

/-- The ordered rule table self.data_repositories: tag, then the literal
alternatives of its regex pattern. -/
def data_repositories : List (String × List String) := [
  ("figshare", ["figshare.com", "figshare"]),
  ("zenodo", ["zenodo.org", "zenodo"]),
  ("dryad", ["datadryad.org", "dryad"]),
  ("osf", ["osf.io"]),
  ("github", ["github.com"]),
  ("gene expression omnibus", ["geo", "gene expression omnibus", "ncbi.nlm.nih.gov/geo"]),
  ("genbank", ["genbank", "ncbi.nlm.nih.gov/genbank"]),
  ("ebi", ["ebi.ac.uk"]),
  ("neurodata", ["neurodata.io"]),
  ("neurovault", ["neurovault.org"]),
  ("openneuro", ["openneuro.org"]),
  ("brainmaps", ["brainmaps.org"]),
  ("allen brain atlas", ["brain-map.org", "allen brain"]),
  ("human connectome project", ["humanconnectome.org"]),
  ("uk biobank", ["ukbiobank.ac.uk"]),
  ("ncbi", ["ncbi.nlm.nih.gov"]),
  ("dataverse", ["dataverse"]),
  ("ieee dataport", ["ieee-dataport"]),
  ("kaggle", ["kaggle.com"]),
  ("harvard dataverse", ["dataverse.harvard.edu"]),
  ("crcns", ["crcns.org"]),
  ("neuromorpho", ["neuromorpho.org"]),
  ("huggingface", ["huggingface.co"]),
  ("codeocean", ["codeocean.com"]),
  ("mendeley data", ["data.mendeley.com"]),
  ("synapse", ["synapse.org"])]

/-- Does one rule match the combined text?  The combined text is already
lowercased and every alternative is lowercase, so the IGNORECASE flag of
re.search adds nothing. -/
def ruleMatches (combined : List Char) (rule : String × List String) : Bool :=
  rule.2.any (fun lit => containsSub combined lit.data)

/-- DatasetExtractor._identify_repository: lowercase the concatenation of
url, a space and text, return the tag of the first rule whose pattern
matches, and None when no rule matches. -/
def identify_repository (url text : String) : Option String :=
  let combined := pyLower (url ++ " " ++ text)
  (data_repositories.find? (ruleMatches combined.data)).map (fun p => p.1)

/-- The ordered (domain, tag) table of
DatasetDownloadManager._detect_repository. -/
def detect_mappings : List (String × String) := [
  ("figshare.com", "figshare"),
  ("10.6084/m9.figshare", "figshare"),
  ("zenodo.org", "zenodo"),
  ("osf.io", "osf"),
  ("dataverse", "dataverse"),
  ("datadryad.org", "dryad"),
  ("openneuro.org", "openneuro"),
  ("crcns.org", "crcns"),
  ("ebrains.eu", "ebrains"),
  ("dandiarchive.org", "dandi"),
  ("nature.com", "nature"),
  ("science.org", "science"),
  ("cell.com", "cell"),
  ("github.com", "github"),
  ("huggingface.co", "huggingface"),
  ("kaggle.com", "kaggle"),
  ("ncbi.nlm.nih.gov", "ncbi"),
  ("drive.google.com", "google_drive")]

/-- DatasetDownloadManager._detect_repository: lowercase the url, return
the tag of the first mapping whose domain occurs in it, "website"
otherwise. -/
def detect_repository (url : String) : String :=
  let u := pyLower url
  match detect_mappings.find? (fun p => containsSub u.data p.1.data) with
  | some p => p.2
  | Option.none => "website"

/-! ## Deduplication

DatasetExtractor._deduplicate_datasets (src/parsers/dataset_extractor.py:309-329).
-/

/-- The loop of _deduplicate_datasets, carrying the seen_urls and
seen_accessions sets.  A dataset with a truthy, unseen url is kept; a
dataset with a falsy url but a truthy, unseen accession is kept; every
other dataset is dropped. -/
def deduplicate_go (seenUrls seenAccs : List String) : List Dataset → List Dataset
  | [] => []
  | d :: rest =>
    if pyTruthy (pyGet d.url) && !(seenUrls.contains (pyVal (pyGet d.url))) then
      d :: deduplicate_go (pyVal (pyGet d.url) :: seenUrls) seenAccs rest
    else if pyTruthy (pyGet d.accession) && !(seenAccs.contains (pyVal (pyGet d.accession)))
        && !(pyTruthy (pyGet d.url)) then
      d :: deduplicate_go seenUrls (pyVal (pyGet d.accession) :: seenAccs) rest
    else deduplicate_go seenUrls seenAccs rest

def deduplicate_datasets (datasets : List Dataset) : List Dataset :=
  deduplicate_go [] [] datasets

/-! ## Text extraction

DatasetExtractor._extract_from_text (src/parsers/dataset_extractor.py:218-297).
Each regex of the source is hand-compiled to a matcher that, at a given
position, either fails or returns the value re.findall would report for a
match starting there (the first group when the pattern has one, the whole
match otherwise) together with the number of characters consumed.  The
patterns consist of literals, alternations of literals, character classes
and greedy quantifiers; adjacent pieces have disjoint character classes
except where noted, so greedy maximal-munch scanning coincides with the
backtracking semantics of the re module; the one overlap (a colon is both
a separator and a body character) is handled by backOff below.  The
base_url argument of the source is unused there and omitted.  Whitespace
classes are modelled over ASCII. -/

/-- The whitespace class of the re module, over ASCII. -/
def pyWs (c : Char) : Bool :=
  c == ' ' || c == '\t' || c == '\n' || c == '\r' || c == '\x0b' || c == '\x0c'

/-- Python str.strip() over ASCII whitespace. -/
def pyStrip (cs : List Char) : List Char :=
  ((cs.dropWhile pyWs).reverse.dropWhile pyWs).reverse

/-- The negated class of the DOI and URL patterns: everything except
whitespace, double quote, single quote, and angle brackets. -/
def doiBodyChar (c : Char) : Bool :=
  !(pyWs c || c == '"' || c == '\'' || c == '<' || c == '>')

/-- The accession-name class: ASCII letters and digits, dot, underscore,
hyphen. -/
def accNameChar (c : Char) : Bool := c.isAlphanum || c == '.' || c == '_' || c == '-'

/-- The separator class: a colon or whitespace. -/
def colonWs (c : Char) : Bool := c == ':' || pyWs c

/-- Case-insensitive literal test: does the lowercased input start with
the (lowercase) pattern? -/
def lcStarts (pat cs : List Char) : Bool :=
  pat.isPrefixOf ((cs.take pat.length).map Char.toLower)

/-- Case-insensitive literal matcher returning the consumed length. -/
def litIC (pat : String) (cs : List Char) : Option Nat :=
  if lcStarts pat.data cs then some pat.data.length else Option.none

/-- Greedy backtracking over a separator run of maximal length k: find
the largest split 1 ≤ j ≤ k after which the body class matches at least
one character, exactly as the re module shrinks a greedy plus when the
following piece needs a character the run swallowed. -/
def backOff (cs : List Char) (body : Char → Bool) : Nat → Option (Nat × List Char)
  | 0 => Option.none
  | k+1 =>
    let cap := (cs.drop (k+1)).takeWhile body
    if cap.length > 0 then some (k+1, cap) else backOff cs body k

/-- A separator-class plus followed by a captured body-class plus. -/
def sepThenCapture (cls body : Char → Bool) (cs : List Char) : Option (Nat × List Char) :=
  let run := (cs.takeWhile cls).length
  if run == 0 then Option.none else backOff cs body run

/-- re.findall as a scan: try the matcher at every position from the
left; on a match, emit its value and resume after the consumed
characters (every matcher here consumes at least one character).  The
fuel argument is the length of the scanned suffix. -/
def scanAll (m : List Char → Option (List Char × Nat)) : Nat → List Char → List (List Char)
  | 0, _ => []
  | _, [] => []
  | fuel+1, c :: rest =>
    match m (c :: rest) with
    | some p => p.1 :: scanAll m fuel (rest.drop (p.2 - 1))
    | Option.none => scanAll m fuel rest

def runScan (m : List Char → Option (List Char × Nat)) (cs : List Char) : List (List Char) :=
  scanAll m cs.length cs

/-- DOI pattern 1: the literal doi.org/ (IGNORECASE) followed by a
captured run of body characters. -/
def doiOrgAt (cs : List Char) : Option (List Char × Nat) :=
  match litIC "doi.org/" cs with
  | Option.none => Option.none
  | some n =>
    let cap := (cs.drop n).takeWhile doiBodyChar
    if cap.length > 0 then some (cap, n + cap.length) else Option.none

/-- DOI pattern 2: the literal doi: followed by a run of body characters;
no group, so the whole match (in original case) is reported. -/
def doiColonAt (cs : List Char) : Option (List Char × Nat) :=
  match litIC "doi:" cs with
  | Option.none => Option.none
  | some n =>
    let cap := (cs.drop n).takeWhile doiBodyChar
    if cap.length > 0 then some (cs.take (n + cap.length), n + cap.length) else Option.none

/-- DOI pattern 3: digital, whitespace, object, whitespace, identifier, a
colon-or-whitespace run, then a captured body run. -/
def digitalIdAt (cs : List Char) : Option (List Char × Nat) :=
  match litIC "digital" cs with
  | Option.none => Option.none
  | some n1 =>
    let cs1 := cs.drop n1
    let w1 := (cs1.takeWhile pyWs).length
    if w1 == 0 then Option.none else
    let cs2 := cs1.drop w1
    match litIC "object" cs2 with
    | Option.none => Option.none
    | some n2 =>
      let cs3 := cs2.drop n2
      let w2 := (cs3.takeWhile pyWs).length
      if w2 == 0 then Option.none else
      let cs4 := cs3.drop w2
      match litIC "identifier" cs4 with
      | Option.none => Option.none
      | some n3 =>
        match sepThenCapture colonWs doiBodyChar (cs4.drop n3) with
        | Option.none => Option.none
        | some kc => some (kc.2, n1 + w1 + n2 + w2 + n3 + kc.1 + kc.2.length)

/-- Accession pattern 1: accession, whitespace, code or number, separator
run, captured name run (all literals IGNORECASE). -/
def accPat1At (cs : List Char) : Option (List Char × Nat) :=
  match litIC "accession" cs with
  | Option.none => Option.none
  | some n1 =>
    let cs1 := cs.drop n1
    let w1 := (cs1.takeWhile pyWs).length
    if w1 == 0 then Option.none else
    let cs2 := cs1.drop w1
    match (match litIC "code" cs2 with | some n => some n | Option.none => litIC "number" cs2) with
    | Option.none => Option.none
    | some n2 =>
      match sepThenCapture colonWs accNameChar (cs2.drop n2) with
      | Option.none => Option.none
      | some kc => some (kc.2, n1 + w1 + n2 + kc.1 + kc.2.length)

/-- Accession pattern 2: accession, separator run, captured name run. -/
def accPat2At (cs : List Char) : Option (List Char × Nat) :=
  match litIC "accession" cs with
  | Option.none => Option.none
  | some n1 =>
    match sepThenCapture colonWs accNameChar (cs.drop n1) with
    | Option.none => Option.none
    | some kc => some (kc.2, n1 + kc.1 + kc.2.length)

/-- The database alternatives of accession pattern 3, lowercased; no
alternative is a prefix of another, so at any position at most one
matches and first-match equals the re module's ordered alternation. -/
def acc3lits : List String := ["geo", "sra", "ena", "ddbj", "arrayexpress", "biosample", "bioproject"]

/-- Accession pattern 3: a database name, whitespace, accession, separator
run, captured name run. -/
def accPat3At (cs : List Char) : Option (List Char × Nat) :=
  match acc3lits.findSome? (fun lit => litIC lit cs) with
  | Option.none => Option.none
  | some n1 =>
    let cs1 := cs.drop n1
    let w1 := (cs1.takeWhile pyWs).length
    if w1 == 0 then Option.none else
    let cs2 := cs1.drop w1
    match litIC "accession" cs2 with
    | Option.none => Option.none
    | some n2 =>
      match sepThenCapture colonWs accNameChar (cs2.drop n2) with
      | Option.none => Option.none
      | some kc => some (kc.2, n1 + w1 + n2 + kc.1 + kc.2.length)

def acc4lits : List String := ["geo", "sra", "ena", "ddbj", "arrayexpress"]

/-- Accession pattern 4: a database name, optional whitespace, a colon,
optional whitespace, captured name run. -/
def accPat4At (cs : List Char) : Option (List Char × Nat) :=
  match acc4lits.findSome? (fun lit => litIC lit cs) with
  | Option.none => Option.none
  | some n1 =>
    let cs1 := cs.drop n1
    let w1 := (cs1.takeWhile pyWs).length
    match cs1.drop w1 with
    | ':' :: cs2 =>
      let w2 := (cs2.takeWhile pyWs).length
      let cap := (cs2.drop w2).takeWhile accNameChar
      if cap.length > 0 then some (cap, n1 + w1 + 1 + w2 + cap.length) else Option.none
    | _ => Option.none

/-- The prefixes of accession pattern 5, lowercased; pairwise
non-prefix. -/
def acc5lits : List String :=
  ["gse", "gsm", "srp", "srr", "erp", "err", "drp", "drr", "prjna", "samn"]

/-- Accession pattern 5: a known accession prefix followed by at least
five digits; no group, so the whole match (original case) is reported. -/
def accPat5At (cs : List Char) : Option (List Char × Nat) :=
  match acc5lits.findSome? (fun lit => litIC lit cs) with
  | Option.none => Option.none
  | some n =>
    let digits := (cs.drop n).takeWhile (fun c => c.isDigit)
    if digits.length ≥ 5 then some (cs.take (n + digits.length), n + digits.length)
    else Option.none

/-- Accession pattern 6 (ArrayExpress, IGNORECASE): E, hyphen, three or
four letters, hyphen, at least one digit; whole match reported.  A run of
five or more letters fails for every split of the greedy counted
repetition, and a run of exactly three or four is followed by the run
boundary, so checking the maximal run length is exact. -/
def accPat6At (cs : List Char) : Option (List Char × Nat) :=
  match cs with
  | c :: '-' :: rest =>
    if c.toLower == 'e' then
      let r := (rest.takeWhile (fun ch => ch.isAlpha)).length
      if r == 3 || r == 4 then
        match rest.drop r with
        | '-' :: t =>
          let digits := t.takeWhile (fun ch => ch.isDigit)
          if digits.length > 0 then
            some (cs.take (2 + r + 1 + digits.length), 2 + r + 1 + digits.length)
          else Option.none
        | _ => Option.none
      else Option.none
    else Option.none
  | _ => Option.none

/-- The URL pattern (case-sensitive): an http or https scheme, a negative
lookahead rejecting dx.doi.org, then a captured body run; the single
group spans the whole pattern, so the whole match is reported. -/
def urlAt (cs : List Char) : Option (List Char × Nat) :=
  let schemeLen : Option Nat :=
    if ("https://".data).isPrefixOf cs then some 8
    else if ("http://".data).isPrefixOf cs then some 7
    else Option.none
  match schemeLen with
  | Option.none => Option.none
  | some n =>
    let rest := cs.drop n
    if ("dx.doi.org".data).isPrefixOf rest then Option.none
    else
      let body := rest.takeWhile doiBodyChar
      if body.length > 0 then some (cs.take (n + body.length), n + body.length)
      else Option.none

/-- The DOI branch of _extract_from_text: strip the reported value, skip
it when empty, drop a leading doi: prefix (case-sensitive startswith),
and build the reference; the url is the value itself when it starts with
http, a doi.org link otherwise. -/
def mkDoiDataset (m : List Char) : Option Dataset :=
  let doi0 := pyStrip m
  if doi0.isEmpty then Option.none
  else
    let doi1 := if ("doi:".data).isPrefixOf doi0 then doi0.drop 4 else doi0
    let doi : String := String.mk doi1
    let url := if ("http".data).isPrefixOf doi1 then doi else "https://doi.org/" ++ doi
    some { name := PyStr.str ("Dataset DOI: " ++ doi), url := PyStr.str url,
           repository := PyStr.str "DOI", found_in := PyStr.str "text_doi" }

/-- re.match of a literal followed by one-or-more digits, case-sensitive,
anchored at the start (trailing characters allowed). -/
def reMatchLitDigits (lit : String) (s : String) : Bool :=
  lit.data.isPrefixOf s.data &&
    (match s.data.drop lit.data.length with
     | c :: _ => c.isDigit
     | [] => false)

/-- re.match of the case-sensitive ArrayExpress format E-[A-Z]cubed-to-
fourth-digits, anchored at the start. -/
def reMatchAE (s : String) : Bool :=
  match s.data with
  | 'E' :: '-' :: rest =>
    let r := (rest.takeWhile (fun c => c.isUpper)).length
    (r == 3 || r == 4) &&
      (match rest.drop r with
       | '-' :: t => (match t with | c :: _ => c.isDigit | [] => false)
       | _ => false)
  | _ => false

/-- The database-type dispatch of the accession branch: the case-sensitive
re.match chain over the stripped accession, returning the repository tag
and the derived url (None in the unknown case). -/
def accessionDb (accession : String) : String × Option String :=
  if reMatchLitDigits "GSE" accession then
    ("GEO Series", some ("https://www.ncbi.nlm.nih.gov/geo/query/acc.cgi?acc=" ++ accession))
  else if reMatchLitDigits "GSM" accession then
    ("GEO Sample", some ("https://www.ncbi.nlm.nih.gov/geo/query/acc.cgi?acc=" ++ accession))
  else if reMatchLitDigits "SRP" accession || reMatchLitDigits "SRR" accession then
    ("SRA", some ("https://www.ncbi.nlm.nih.gov/sra/" ++ accession))
  else if reMatchLitDigits "PRJNA" accession then
    ("BioProject", some ("https://www.ncbi.nlm.nih.gov/bioproject/" ++ accession))
  else if reMatchLitDigits "SAMN" accession then
    ("BioSample", some ("https://www.ncbi.nlm.nih.gov/biosample/" ++ accession))
  else if reMatchAE accession then
    ("ArrayExpress", some ("https://www.ebi.ac.uk/arrayexpress/experiments/" ++ accession))
  else ("unknown", Option.none)

/-- The accession branch of _extract_from_text: strip the reported value,
skip it when empty, classify the database, and build the reference; a
reference with no derivable url carries url None. -/
def mkAccessionDataset (m : List Char) : Option Dataset :=
  let accession : String := String.mk (pyStrip m)
  if accession == "" then Option.none
  else
    let db := accessionDb accession
    some { name := PyStr.str ("Dataset Accession: " ++ accession),
           url := (match db.2 with | some u => PyStr.str u | Option.none => PyStr.pynone),
           repository := PyStr.str db.1,
           accession := PyStr.str accession,
           found_in := PyStr.str "text_accession" }

/-- The URL branch of _extract_from_text: keep a matched url only when
the classifier recognises a repository in it. -/
def mkUrlDataset (m : List Char) : Option Dataset :=
  let url : String := String.mk m
  match identify_repository url "" with
  | some repo =>
    some { name := PyStr.str ("Dataset from " ++ repo), url := PyStr.str url,
           repository := PyStr.str repo, found_in := PyStr.str "text_url" }
  | Option.none => Option.none

/-- DatasetExtractor._extract_from_text: the DOI passes in order, then
the accession passes in order, then the URL pass, each contributing its
references in scan order. -/
def extract_from_text (text : String) : List Dataset :=
  let t := text.data
  ((runScan doiOrgAt t ++ runScan doiColonAt t ++ runScan digitalIdAt t).filterMap mkDoiDataset)
    ++ ((runScan accPat1At t ++ runScan accPat2At t ++ runScan accPat3At t
          ++ runScan accPat4At t ++ runScan accPat5At t ++ runScan accPat6At t).filterMap
            mkAccessionDataset)
    ++ ((runScan urlAt t).filterMap mkUrlDataset)

/-! ## Download history and the single-dataset download

DataDownloader (src/utils/data_utils.py) and
DatasetDownloadManager.download_single_dataset
(src/utils/dataset_downloader.py:186-293). -/

/-- One value of the download_history mapping, as written by
DataDownloader.download_dataset.  The download_time wall-clock field is
not modelled; path is the dataset directory on success and None on
failure. -/
structure HistEntry where
  url : String
  name : String
  repository : String
  status : String
  message : String
  path : Option String
deriving DecidableEq, Repr

/-- The downloader state: the download_history dict (an insertion-ordered
association list with unique keys, like a Python dict) plus the trace of
urls for which a download method performed network I/O.  Every download
method issues at least one HTTP request for its url; the trace records
one entry per method invocation, so an unchanged trace means no network
I/O happened. -/
structure DLState where
  history : List (String × HistEntry)
  netCalls : List String
deriving DecidableEq, Repr

/-- Python dict assignment: replace the value at the key in place, or
append the binding at the end when the key is new. -/
def putAssoc : List (String × HistEntry) → String → HistEntry → List (String × HistEntry)
  | [], k, v => [(k, v)]
  | p :: rest, k, v => if p.1 == k then (k, v) :: rest else p :: putAssoc rest k v

def lookupAssoc (m : List (String × HistEntry)) (k : String) : Option HistEntry :=
  (m.find? (fun p => p.1 == k)).map (fun p => p.2)

/-- Python del of a dict key. -/
def delAssoc (m : List (String × HistEntry)) (k : String) : List (String × HistEntry) :=
  m.eraseP (fun p => p.1 == k)

/-- DataDownloader._get_download_id (src/utils/data_utils.py:83-98).  The
hashFn parameter stands for md5 of the sorted-key JSON serialization of
the whole dataset dict, which is only consulted in the final fallback. -/
def get_download_id (hashFn : Dataset → String) (d : Dataset) : String :=
  let url := pyStrOf "" d.url
  let name := pyStrOf "" d.name
  let repository := pyStrOf "" d.repository
  if !(url == "") then "url:" ++ url
  else if !(name == "") && !(repository == "") then "name:" ++ name ++ "|repo:" ++ repository
  else "hash:" ++ hashFn d

/-- DataDownloader.is_dataset_downloaded (src/utils/data_utils.py:61-81):
false for a dataset with a falsy url; otherwise true exactly when the
history holds a success record under the download id. -/
def is_dataset_downloaded (hashFn : Dataset → String) (history : List (String × HistEntry))
    (d : Dataset) : Bool :=
  let url := pyStrOf "" d.url
  if url == "" then false
  else
    match lookupAssoc history (get_download_id hashFn d) with
    | some e => e.status == "success"
    | Option.none => false

/-- The data-file extensions of _determine_url_type. -/
def file_extensions : List String :=
  [".zip", ".tar", ".gz", ".rar", ".7z", ".csv", ".txt", ".json", ".pdf", ".nii", ".nii.gz", ".mat"]

/-- DataDownloader._determine_url_type (src/utils/data_utils.py:275-310). -/
def determine_url_type (url : String) : String :=
  let u := pyLower url
  if file_extensions.any (fun ext => ext.data.isSuffixOf u.data) then "direct_download"
  else if containsSub u.data ("github.com").data then "github"
  else if containsSub u.data ("figshare.com").data then "figshare"
  else if containsSub u.data ("zenodo.org").data then "zenodo"
  else if containsSub u.data ("osf.io").data then "osf"
  else if containsSub u.data ("datadryad.org").data then "dryad"
  else if containsSub u.data ("dataverse").data then "dataverse"
  else if containsSub u.data ("kaggle.com").data then "kaggle"
  else "webpage"

/-- DataDownloader.download_dataset (src/utils/data_utils.py:100-177).
strat gives, for a url type and url, the (success, message) outcome of
the download method the if/elif chain dispatches to
(_download_direct_file, _download_github, ..., _download_webpage); each
of those methods performs network I/O on the url, recorded in netCalls.
skipExisting is self.skip_existing (config default True); downloadDir is
the target directory.  The history record is written after every
completed attempt, with status success or failed. -/
def download_dataset (skipExisting : Bool) (downloadDir : String) (hashFn : Dataset → String)
    (strat : String → String → Bool × String) (d : Dataset) (st : DLState) :
    (Bool × String) × DLState :=
  match d.url with
  | PyStr.absent => ((false, "数据集缺少URL信息"), st)
  | _ =>
    let url := pyStrOf "" d.url
    let name := pyStrOf "unnamed_dataset" d.name
    let repository := pyStrOf "unknown" d.repository
    let dataset_dir :=
      downloadDir ++ "/" ++ DataDownloader.sanitize_filename (repository ++ "_" ++ name)
    let id := get_download_id hashFn d
    let hasSuccess :=
      match lookupAssoc st.history id with
      | some e => e.status == "success"
      | Option.none => false
    if hasSuccess && skipExisting then ((true, "已下载"), st)
    else
      let ty := determine_url_type url
      let r := strat ty url
      let entry : HistEntry :=
        { url := url, name := name, repository := repository,
          status := if r.1 then "success" else "failed", message := r.2,
          path := if r.1 then some dataset_dir else Option.none }
      ((r.1, r.2), { history := putAssoc st.history id entry, netCalls := st.netCalls ++ [url] })

/-- One entry of the details list of DataDownloader.download_datasets.
A skip entry has success false, skipped true and the message 已存在; a
success entry has no skipped and no error key (modelled as skipped false,
error None); a failure entry carries the error message. -/
structure BatchDetail where
  dataset : String
  repository : String
  success : Bool
  skipped : Bool
  error : Option String
deriving DecidableEq, Repr

/-- The aggregate returned by DataDownloader.download_datasets. -/
structure BatchResult where
  total : Nat
  success : Nat
  failed : Nat
  skipped : Nat
  details : List BatchDetail
deriving DecidableEq, Repr

/-- The loop body of download_datasets: a dataset whose url key is absent
or falsy is counted skipped with no details entry; a dataset already
downloaded (per is_dataset_downloaded against the current history) is
counted skipped with a details entry; otherwise download_dataset runs and
its outcome is counted.  The str-sanitisation of the source maps string
fields through str and leaves None alone, the identity in this model. -/
def download_datasets_go (skipExisting : Bool) (downloadDir : String) (hashFn : Dataset → String)
    (strat : String → String → Bool × String) :
    List Dataset → DLState → (Nat × Nat × Nat × List BatchDetail) × DLState
  | [], st => ((0, 0, 0, []), st)
  | d :: rest, st =>
    if !(pyTruthy d.url) then
      let r := download_datasets_go skipExisting downloadDir hashFn strat rest st
      ((r.1.1, r.1.2.1, r.1.2.2.1 + 1, r.1.2.2.2), r.2)
    else if is_dataset_downloaded hashFn st.history d then
      let det : BatchDetail :=
        { dataset := pyStrOf "Unknown" d.name, repository := pyStrOf "Unknown" d.repository,
          success := false, skipped := true, error := some "已存在" }
      let r := download_datasets_go skipExisting downloadDir hashFn strat rest st
      ((r.1.1, r.1.2.1, r.1.2.2.1 + 1, det :: r.1.2.2.2), r.2)
    else
      let dl := download_dataset skipExisting downloadDir hashFn strat d st
      let r := download_datasets_go skipExisting downloadDir hashFn strat rest dl.2
      if dl.1.1 then
        let det : BatchDetail :=
          { dataset := pyStrOf "Unknown" d.name, repository := pyStrOf "Unknown" d.repository,
            success := true, skipped := false, error := Option.none }
        ((r.1.1 + 1, r.1.2.1, r.1.2.2.1, det :: r.1.2.2.2), r.2)
      else
        let det : BatchDetail :=
          { dataset := pyStrOf "Unknown" d.name, repository := pyStrOf "Unknown" d.repository,
            success := false, skipped := false, error := some dl.1.2 }
        ((r.1.1, r.1.2.1 + 1, r.1.2.2.1, det :: r.1.2.2.2), r.2)

/-- DataDownloader.download_datasets (src/utils/data_utils.py:179-273):
total is the input length, computed up front; the loop isolates each
item, so every item contributes to exactly one of the three counters. -/
def download_datasets (skipExisting : Bool) (downloadDir : String) (hashFn : Dataset → String)
    (strat : String → String → Bool × String) (datasets : List Dataset) (st : DLState) :
    BatchResult × DLState :=
  let r := download_datasets_go skipExisting downloadDir hashFn strat datasets st
  ({ total := datasets.length, success := r.1.1, failed := r.1.2.1,
     skipped := r.1.2.2.1, details := r.1.2.2.2 }, r.2)

/-- The repositories download_single_dataset routes through a special
downloader first (figshare unconditionally, zenodo/osf/dryad because the
corresponding methods exist on DataDownloader). -/
def special_repositories : List String := ["figshare", "zenodo", "osf", "dryad"]

/-- DatasetDownloadManager.download_single_dataset
(src/utils/dataset_downloader.py:186-293).  genName stands for the
timestamp-based _generate_dataset_name.  When repository is None, empty
or the auto-detect marker, _detect_repository classifies the url.  The
dataset dict also carries data_types = [] in the source, not consulted on
this path.  If force is false and the dataset has a success record, the
source deletes that record so the dataset is downloaded again.  For a
special repository, the special downloader is invoked (one network call);
on its success the source calls the nonexistent method
_add_to_download_history, whose AttributeError the surrounding except
swallows, and on its failure it logs — either way control falls through
to the regular DataDownloader.download_dataset, whose outcome is the
returned value.  DataDownloader has no _download_with_selenium, so the
selenium fallback guarded by hasattr never runs. -/
def download_single_dataset (skipExisting : Bool) (downloadDir : String)
    (hashFn : Dataset → String) (strat : String → String → Bool × String) (genName : String)
    (dataset_url : String) (name repository : Option String) (force : Bool) (st : DLState) :
    (Bool × String) × DLState :=
  let repo :=
    match repository with
    | Option.none => detect_repository dataset_url
    | some r => if r == "" || r == "自动检测" then detect_repository dataset_url else r
  let nm :=
    match name with
    | Option.none => genName
    | some n => if n == "" then genName else n
  let d : Dataset :=
    { name := PyStr.str nm, url := PyStr.str dataset_url, repository := PyStr.str repo }
  let st1 :=
    if !force && is_dataset_downloaded hashFn st.history d then
      { st with history := delAssoc st.history (get_download_id hashFn d) }
    else st
  let st2 :=
    if special_repositories.contains (pyLower repo) then
      { st1 with netCalls := st1.netCalls ++ [dataset_url] }
    else st1
  download_dataset skipExisting downloadDir hashFn strat d st2

/-! ## Retry helper

DataDownloader._download_with_retry (src/utils/data_utils.py:312-367). -/

/-- What one requests.get attempt produces: an HTTP response with a
status code, or a requests.RequestException raised during the request or
while streaming the body. -/
inductive NetResp where
  | status (code : Nat)
  | exn (msg : String)
deriving DecidableEq, Repr

/-- The attempt loop of _download_with_retry, indexed by the attempt
number and the remaining attempts.  Returns the (success, message)
result, the list of sleep durations performed, and the number of HTTP
requests issued.  A 200 stores the file and returns the success message;
any other status logs, sleeps the fixed delay (even on the last attempt)
and continues; an exception sleeps only when attempts remain.  File
writing (tempfile and shutil.move) is not modelled. -/
def dwr_go (delay : Nat) (failResult : Bool × String) (oracle : Nat → NetResp) :
    Nat → Nat → (Bool × String) × List Nat × Nat
  | _, 0 => (failResult, [], 0)
  | attempt, rem+1 =>
    match oracle attempt with
    | NetResp.status code =>
      if !(code == 200) then
        let r := dwr_go delay failResult oracle (attempt + 1) rem
        (r.1, delay :: r.2.1, r.2.2 + 1)
      else ((true, "下载成功"), [], 1)
    | NetResp.exn _ =>
      let r := dwr_go delay failResult oracle (attempt + 1) rem
      (r.1, (if rem > 0 then delay :: r.2.1 else r.2.1), r.2.2 + 1)

/-- DataDownloader._download_with_retry: retryCount attempts (config
retry_count, default 3), a fixed delay between attempts (config
delay_between_retry, default 5 seconds), returning a failure message
rather than raising when every attempt fails. -/
def download_with_retry (retryCount delay : Nat) (oracle : Nat → NetResp) :
    (Bool × String) × List Nat × Nat :=
  dwr_go delay (false, "下载失败，已重试" ++ toString retryCount ++ "次") oracle 0 retryCount

/-- The config defaults of DataDownloader.__init__ for the retry loop. -/
def default_retry_count : Nat := 3

def default_delay_between_retry : Nat := 5

/-! ## Collector-side extraction

BaseCollector.extract_datasets (src/collectors/base_collector.py:99-152). -/

/-- The article dict fields extract_datasets reads.  datasets is the
pre-extracted list when the key is present. -/
structure Article where
  datasets : Option (List Dataset) := Option.none
  title : PyStr := PyStr.absent
  url : String := ""
  doi : PyStr := PyStr.absent
  abstract : PyStr := PyStr.absent
  source : PyStr := PyStr.absent
  supplementary_url : PyStr := PyStr.absent
deriving DecidableEq

/-- The part of BaseCollector.extract_datasets after the pre-extracted
check: if extraction found nothing and a supplementary url is known, a
single synthetic Supplementary Materials reference is emitted; then every
dataset is enriched with the paper info. -/
def extract_datasets_rest (article : Article) (extractResult : List Dataset)
    (dataTypesOf : String → List String) : List Dataset :=
  let journal_type := pyStrOf "unknown" article.source
  let datasets :=
    if extractResult.isEmpty && pyTruthy article.supplementary_url then
      [{ name := PyStr.str "Supplementary Materials",
         url := PyStr.str (pyStrOf "" article.supplementary_url),
         repository := PyStr.str "journal_supplementary",
         source := PyStr.str journal_type : Dataset }]
    else extractResult
  datasets.map (fun ds =>
    { ds with
      paper_title := PyStr.str (pyStrOf "Unknown" article.title),
      paper_url := PyStr.str article.url,
      paper_doi := pyGet article.doi,
      data_types :=
        if pyTruthy article.abstract then some (dataTypesOf (pyStrOf "" article.abstract))
        else ds.data_types })

/-- BaseCollector.extract_datasets.  extractResult stands for the value
of dataset_extractor.extract_from_html on the article page (HTML parsing
and the page fetch are outside this model); dataTypesOf stands for
dataset_extractor.identify_data_types; the extracted_at wall-clock field
is not modelled.  When the article carries a non-empty pre-extracted
datasets list it is returned unchanged (no enrichment); every other path
goes through extract_datasets_rest. -/
def extract_datasets (article : Article) (extractResult : List Dataset)
    (dataTypesOf : String → List String) : List Dataset :=
  match article.datasets with
  | some ds =>
    if !ds.isEmpty then ds
    else extract_datasets_rest article extractResult dataTypesOf
  | Option.none => extract_datasets_rest article extractResult dataTypesOf

end NeuroCrawler

namespace NeuroCrawler

theorem replaceIllegal_not_illegal (c : Char) : replaceIllegal c ∉ illegalChars := by
  unfold replaceIllegal
  by_cases h : c ∈ illegalChars
  · simp [h]; decide
  · simp [h]

theorem sanitizeSimpleList_length (cs : List Char) : (sanitizeSimpleList cs).length ≤ 100 := by
  unfold sanitizeSimpleList
  by_cases h : (cs.map replaceIllegal).length > 100
  · simp only [h, if_true]
    exact List.length_take_le 100 (cs.map replaceIllegal)
  · simp only [h, if_false]
    omega

theorem sanitizeSimpleList_clean (cs : List Char) :
    ∀ c ∈ sanitizeSimpleList cs, c ∉ illegalChars := by
  intro c hc
  unfold sanitizeSimpleList at hc
  by_cases h : (cs.map replaceIllegal).length > 100
  · simp only [h, if_true] at hc
    have := List.take_subset 100 (cs.map replaceIllegal) hc
    rcases List.mem_map.mp this with ⟨x, _, hx⟩
    exact hx ▸ replaceIllegal_not_illegal x
  · simp only [h, if_false] at hc
    rcases List.mem_map.mp hc with ⟨x, _, hx⟩
    exact hx ▸ replaceIllegal_not_illegal x

theorem sanitizeDUList_length (cs : List Char) : (sanitizeDUList cs).length ≤ 100 := by
  unfold sanitizeDUList
  by_cases h : (cs.map replaceIllegal).length > 100
  · simp only [h, if_true, List.length_append]
    set be := splitext (cs.map replaceIllegal) with hbe
    by_cases hext : be.2.length > 10
    · simp only [hext, if_true]
      have h1 : (be.1.take (100 - (be.2.take 10).length)).length ≤ 100 - (be.2.take 10).length :=
        List.length_take_le _ _
      have h2 : (be.2.take 10).length ≤ 10 := List.length_take_le _ _
      omega
    · simp only [hext, if_false]
      have h1 : (be.1.take (100 - be.2.length)).length ≤ 100 - be.2.length :=
        List.length_take_le _ _
      omega
  · simp only [h, if_false]
    omega

theorem splitext_subset (cs : List Char) :
    (splitext cs).1 ⊆ cs ∧ (splitext cs).2 ⊆ cs := by
  unfold splitext
  match lastDotIdx cs with
  | Option.none => exact ⟨fun _ h => h, by simp⟩
  | some d =>
    by_cases h : (cs.take d).any (fun c => c != '.')
    · simp only [h, if_true]
      exact ⟨List.take_subset d cs, List.drop_subset d cs⟩
    · simp only [h, if_false]
      exact ⟨fun _ h => h, by simp⟩

theorem sanitizeDUList_clean (cs : List Char) :
    ∀ c ∈ sanitizeDUList cs, c ∉ illegalChars := by
  intro c hc
  have base : ∀ x ∈ cs.map replaceIllegal, x ∉ illegalChars := by
    intro x hx
    rcases List.mem_map.mp hx with ⟨y, _, hy⟩
    exact hy ▸ replaceIllegal_not_illegal y
  unfold sanitizeDUList at hc
  by_cases h : (cs.map replaceIllegal).length > 100
  · simp only [h, if_true] at hc
    rcases List.mem_append.mp hc with h1 | h2
    · have hsub := (splitext_subset (cs.map replaceIllegal)).1
      exact base c (hsub (List.take_subset _ _ h1))
    · have hsub := (splitext_subset (cs.map replaceIllegal)).2
      by_cases hext : (splitext (cs.map replaceIllegal)).2.length > 10
      · simp only [hext, if_true] at h2
        exact base c (hsub (List.take_subset _ _ h2))
      · simp only [hext, if_false] at h2
        exact base c (hsub h2)
  · simp only [h, if_false] at hc
    exact base c hc

/-- C10: every copy of _sanitize_filename returns a string of at most 100
characters containing none of the characters < > : " / \ | ? * — so each
per-dataset directory name derived from a reference name is a single safe
path component.  The three conjuncts cover the copy in DataDownloader,
the copy in DatasetDownloadManager, and the copy in FigshareDownloader. -/
theorem C10_sanitize_filename_safe (s : String) :
    ((DataDownloader.sanitize_filename s).length ≤ 100 ∧
      (DataDownloader.sanitize_filename s).data.all (fun c => !(illegalChars.contains c))) ∧
    ((DatasetDownloadManager.sanitize_filename s).length ≤ 100 ∧
      (DatasetDownloadManager.sanitize_filename s).data.all (fun c => !(illegalChars.contains c))) ∧
    ((FigshareDownloader.sanitize_filename s).length ≤ 100 ∧
      (FigshareDownloader.sanitize_filename s).data.all (fun c => !(illegalChars.contains c))) := by
  have hclean : ∀ l : List Char, (∀ c ∈ l, c ∉ illegalChars) →
      l.all (fun c => !(illegalChars.contains c)) = true := by
    intro l h
    rw [List.all_eq_true]
    intro c hc
    simpa using h c hc
  refine ⟨⟨?_, ?_⟩, ⟨?_, ?_⟩, ?_, ?_⟩
  · exact sanitizeDUList_length s.data
  · exact hclean _ (sanitizeDUList_clean s.data)
  · exact sanitizeSimpleList_length s.data
  · exact hclean _ (sanitizeSimpleList_clean s.data)
  · exact sanitizeSimpleList_length s.data
  · exact hclean _ (sanitizeSimpleList_clean s.data)

/-! ## Helper lemmas -/

theorem pyTruthy_pyGet (x : PyStr) : pyTruthy (pyGet x) = pyTruthy x := by
  cases x <;> rfl

theorem pyStr_of_truthy (x : PyStr) (h : pyTruthy x = true) :
    PyStr.str (pyStrOf "" x) = x := by
  cases x with
  | absent => simp [pyTruthy] at h
  | pynone => simp [pyTruthy] at h
  | str s => rfl

theorem lookupAssoc_putAssoc_self (m : List (String × HistEntry)) (k : String) (v : HistEntry) :
    lookupAssoc (putAssoc m k v) k = some v := by
  induction m with
  | nil => simp [putAssoc, lookupAssoc, List.find?]
  | cons p rest ih =>
    by_cases h : (p.1 == k) = true
    · simp [putAssoc, h, lookupAssoc, List.find?]
    · simp only [putAssoc, h, Bool.false_eq_true, if_false]
      simpa [lookupAssoc, List.find?, h] using ih

/-! ## C1: idempotency of the single-reference download -/

/-- C1: the claim says a second non-forced call of the single-reference
download on an already successfully downloaded reference performs no
network I/O and returns a skipped result.  Evaluating the embedded
download_single_dataset at a concrete reference shows the opposite: the
first call succeeds and records a success history entry, and the second
non-forced call deletes that entry, performs network I/O again (the
network trace grows from one url to two) and returns the plain download
message rather than the skip message 已下载. -/
theorem C1_second_call_redownloads :
    (let call := fun st => download_single_dataset true "datasets" (fun _ => "")
        (fun _ _ => (true, "下载成功")) "gen" "https://example.com/data.zip" (some "mydata")
        Option.none false st
     let first := call { history := [], netCalls := [] }
     let second := call first.2
     first.1 = (true, "下载成功")
       ∧ (lookupAssoc first.2.history "url:https://example.com/data.zip").map
           (fun e => e.status) = some "success"
       ∧ first.2.netCalls = ["https://example.com/data.zip"]
       ∧ second.2.netCalls =
           ["https://example.com/data.zip", "https://example.com/data.zip"]
       ∧ second.1 = (true, "下载成功")
       ∧ ¬ second.1.2 = "已下载") := by
  decide

/-! ## C2: what happens to the history store on total failure -/

/-- C2 counterexample: the claim says that when every strategy fails the
history store is unchanged.  On a concrete reference whose download
fails, the embedded download_dataset starts from an empty history and
ends with a record under the idempotency key, with status failed — the
store is not unchanged. -/
theorem C2_cex_failure_writes_record :
    (let r := download_dataset true "datasets" (fun _ => "") (fun _ _ => (false, "连接失败"))
        { url := PyStr.str "https://example.com/page", name := PyStr.str "ds1",
          repository := PyStr.str "website" }
        { history := [], netCalls := [] }
     r.1 = (false, "连接失败")
       ∧ ¬ r.2.history = []
       ∧ (lookupAssoc r.2.history "url:https://example.com/page").map (fun e => e.status) =
           some "failed") := by
  decide

/-- C2 as amended: when the selected download method fails and the
history holds no success record under the idempotency key,
download_dataset returns the failure, persists a history record with
status failed under the key (overwriting whatever was there), and —
because only a success record triggers the skip — an immediately
following run on the same reference performs network I/O again. -/
theorem C2_failed_record_does_not_block_retry (skipExisting : Bool) (dir : String)
    (hashFn : Dataset → String) (strat : String → String → Bool × String)
    (d : Dataset) (st : DLState) (u : String)
    (hu : d.url = PyStr.str u)
    (hfail : (strat (determine_url_type u) u).1 = false)
    (hnoskip : ∀ e ∈ lookupAssoc st.history (get_download_id hashFn d), e.status ≠ "success") :
    (download_dataset skipExisting dir hashFn strat d st).1.1 = false
    ∧ lookupAssoc (download_dataset skipExisting dir hashFn strat d st).2.history
        (get_download_id hashFn d) =
        some { url := u, name := pyStrOf "unnamed_dataset" d.name,
               repository := pyStrOf "unknown" d.repository, status := "failed",
               message := (strat (determine_url_type u) u).2, path := Option.none }
    ∧ (download_dataset skipExisting dir hashFn strat d st).2.netCalls = st.netCalls ++ [u]
    ∧ (download_dataset skipExisting dir hashFn strat d
          (download_dataset skipExisting dir hashFn strat d st).2).2.netCalls =
        (download_dataset skipExisting dir hashFn strat d st).2.netCalls ++ [u] := by
  have hm : strat (determine_url_type u) u = (false, (strat (determine_url_type u) u).2) := by
    conv_lhs => rw [← Prod.mk.eta (p := strat (determine_url_type u) u)]
    rw [hfail]
  have hbody : download_dataset skipExisting dir hashFn strat d st =
      ((false, (strat (determine_url_type u) u).2),
       { history := putAssoc st.history (get_download_id hashFn d)
           { url := u, name := pyStrOf "unnamed_dataset" d.name,
             repository := pyStrOf "unknown" d.repository, status := "failed",
             message := (strat (determine_url_type u) u).2, path := Option.none },
         netCalls := st.netCalls ++ [u] }) := by
    unfold download_dataset
    rw [hu]
    have hskip : (match lookupAssoc st.history (get_download_id hashFn d) with
        | some e => e.status == "success"
        | Option.none => false) = false := by
      cases hlk : lookupAssoc st.history (get_download_id hashFn d) with
      | none => rfl
      | some e =>
        have := hnoskip e (by rw [hlk]; exact rfl)
        simpa using this
    simp only [pyStrOf, hskip, Bool.false_and, Bool.false_eq_true, if_false]
    simp only [hfail, Bool.false_eq_true, if_false]
  refine ⟨by rw [hbody], ?_, by rw [hbody], ?_⟩
  · rw [hbody]
    exact lookupAssoc_putAssoc_self _ _ _
  · rw [hbody]
    unfold download_dataset
    rw [hu]
    simp only [pyStrOf]
    rw [lookupAssoc_putAssoc_self]
    simp [hfail]

/-- C2 witness: the amended statement applied at a concrete failing
reference with an empty history. -/
theorem C2_failed_record_does_not_block_retry_witness :
    (download_dataset true "datasets" (fun _ => "") (fun _ _ => (false, "连接失败"))
        { url := PyStr.str "https://example.com/page", name := PyStr.str "ds1",
          repository := PyStr.str "website" }
        { history := [], netCalls := [] }).1.1 = false
    ∧ lookupAssoc (download_dataset true "datasets" (fun _ => "")
          (fun _ _ => (false, "连接失败"))
          { url := PyStr.str "https://example.com/page", name := PyStr.str "ds1",
            repository := PyStr.str "website" }
          { history := [], netCalls := [] }).2.history
        (get_download_id (fun _ => "")
          { url := PyStr.str "https://example.com/page", name := PyStr.str "ds1",
            repository := PyStr.str "website" }) =
        some { url := "https://example.com/page", name := "ds1", repository := "website",
               status := "failed",
               message := ((fun (_ _ : String) => (false, "连接失败")) (determine_url_type
                 "https://example.com/page") "https://example.com/page").2,
               path := Option.none }
    ∧ (download_dataset true "datasets" (fun _ => "") (fun _ _ => (false, "连接失败"))
          { url := PyStr.str "https://example.com/page", name := PyStr.str "ds1",
            repository := PyStr.str "website" }
          { history := [], netCalls := [] }).2.netCalls = [] ++ ["https://example.com/page"]
    ∧ (download_dataset true "datasets" (fun _ => "") (fun _ _ => (false, "连接失败"))
          { url := PyStr.str "https://example.com/page", name := PyStr.str "ds1",
            repository := PyStr.str "website" }
          (download_dataset true "datasets" (fun _ => "") (fun _ _ => (false, "连接失败"))
            { url := PyStr.str "https://example.com/page", name := PyStr.str "ds1",
              repository := PyStr.str "website" }
            { history := [], netCalls := [] }).2).2.netCalls =
        (download_dataset true "datasets" (fun _ => "") (fun _ _ => (false, "连接失败"))
          { url := PyStr.str "https://example.com/page", name := PyStr.str "ds1",
            repository := PyStr.str "website" }
          { history := [], netCalls := [] }).2.netCalls ++ ["https://example.com/page"] := by
  exact C2_failed_record_does_not_block_retry true "datasets" (fun _ => "")
    (fun _ _ => (false, "连接失败"))
    { url := PyStr.str "https://example.com/page", name := PyStr.str "ds1",
      repository := PyStr.str "website" }
    { history := [], netCalls := [] } "https://example.com/page" rfl rfl (by decide)

/-! ## C3: the DOI-extraction scenario -/

/-- C3 counterexample: on the scenario text the claim asserts exactly one
extracted reference, with repository zenodo and a doi field holding
10.5281/zenodo.1234567.  The embedded extractor yields two references,
none of which carries a doi key at all, none of which has both the
zenodo tag and that doi — and after deduplication the single surviving
reference is tagged DOI, not zenodo. -/
theorem C3_cex_doi_scenario :
    ((extract_from_text "Data are available at https://doi.org/10.5281/zenodo.1234567").filter
        (fun d => d.doi == PyStr.str "10.5281/zenodo.1234567")) = []
    ∧ ¬ ((extract_from_text
          "Data are available at https://doi.org/10.5281/zenodo.1234567").length = 1)
    ∧ ((deduplicate_datasets (extract_from_text
          "Data are available at https://doi.org/10.5281/zenodo.1234567")).map
        (fun d => d.repository)) = [PyStr.str "DOI"] := by
  decide

/-- C3 as amended: the scenario text yields two pre-deduplication
references sharing the url https://doi.org/10.5281/zenodo.1234567 — the
DOI regex pass emits one named Dataset DOI: 10.5281/zenodo.1234567 with
repository DOI, then the URL pass emits one named Dataset from zenodo
with repository zenodo (the classifier tag) — neither carrying a doi
field; deduplication keeps only the first, so the extracted reference
for that url has repository DOI and the doi appears only inside its name
and url. -/
theorem C3_doi_scenario_result :
    extract_from_text "Data are available at https://doi.org/10.5281/zenodo.1234567" =
      [{ name := PyStr.str "Dataset DOI: 10.5281/zenodo.1234567",
         url := PyStr.str "https://doi.org/10.5281/zenodo.1234567",
         repository := PyStr.str "DOI", found_in := PyStr.str "text_doi" },
       { name := PyStr.str "Dataset from zenodo",
         url := PyStr.str "https://doi.org/10.5281/zenodo.1234567",
         repository := PyStr.str "zenodo", found_in := PyStr.str "text_url" }]
    ∧ deduplicate_datasets (extract_from_text
          "Data are available at https://doi.org/10.5281/zenodo.1234567") =
      [{ name := PyStr.str "Dataset DOI: 10.5281/zenodo.1234567",
         url := PyStr.str "https://doi.org/10.5281/zenodo.1234567",
         repository := PyStr.str "DOI", found_in := PyStr.str "text_doi" }] := by
  constructor
  · rfl
  · rfl

/-! ## C5: the repository classifier -/

/-- C5 counterexample: the claim says that when no rule matches, the
classifier returns the URL domain as a pseudo-tag when the text holds a
dataset keyword, and the tag website otherwise.  On a concrete url and a
text containing the keyword dataset with no rule matching,
_identify_repository returns None — neither the domain example.com nor
website.  (The domain fallback lives in the caller _extract_from_links,
and the website fallback in the separate _detect_repository.) -/
theorem C5_cex_returns_none :
    identify_repository "https://example.com/page" "the dataset is here" = Option.none
    ∧ ¬ (identify_repository "https://example.com/page" "the dataset is here" =
          some "example.com")
    ∧ ¬ (identify_repository "https://example.com/page" "the dataset is here" =
          some "website") := by
  decide

/-- C5 as amended: _identify_repository applies the ordered rule table to
the lowercased concatenation of url, a space and text, and returns the
tag of the first matching rule; when no rule matches it returns None —
there is no domain or website fallback in the classifier itself.  The
separate _detect_repository applies its ordered domain table to the
lowercased url alone and returns website exactly when no domain occurs.
Both are total functions. -/
theorem C5_classifier_first_match (url text : String) :
    (∀ tag : String, identify_repository url text = some tag ↔
      ∃ pats l₁ l₂, data_repositories = l₁ ++ (tag, pats) :: l₂
        ∧ ruleMatches (pyLower (url ++ " " ++ text)).data (tag, pats) = true
        ∧ ∀ r ∈ l₁, ruleMatches (pyLower (url ++ " " ++ text)).data r = false)
    ∧ (identify_repository url text = Option.none ↔
        ∀ r ∈ data_repositories, ruleMatches (pyLower (url ++ " " ++ text)).data r = false)
    ∧ (detect_repository url = "website" ↔
        ∀ p ∈ detect_mappings, containsSub (pyLower url).data p.1.data = false) := by
  refine ⟨?_, ?_, ?_⟩
  · intro tag
    constructor
    · intro h
      rcases Option.map_eq_some'.mp h with ⟨r, hfind, hfst⟩
      rcases List.find?_eq_some.mp hfind with ⟨hp, as, bs, heq, hall⟩
      subst hfst
      refine ⟨r.2, as, bs, ?_, ?_, ?_⟩
      · rw [Prod.mk.eta]
        exact heq
      · rw [Prod.mk.eta]
        exact hp
      · intro q hq
        have := hall q hq
        simpa using this
    · rintro ⟨pats, l₁, l₂, heq, hmatch, hn⟩
      have hfind : data_repositories.find?
          (ruleMatches (pyLower (url ++ " " ++ text)).data) = some (tag, pats) := by
        apply List.find?_eq_some.mpr
        exact ⟨hmatch, l₁, l₂, heq, fun a ha => by simp [hn a ha]⟩
      show Option.map (fun p => p.1) (List.find?
        (ruleMatches (pyLower (url ++ " " ++ text)).data) data_repositories) = some tag
      rw [hfind]
      rfl
  · constructor
    · intro h r hr
      have hfind : data_repositories.find?
          (ruleMatches (pyLower (url ++ " " ++ text)).data) = Option.none :=
        Option.map_eq_none'.mp h
      have := List.find?_eq_none.mp hfind r hr
      simpa using this
    · intro hall
      show Option.map (fun p => p.1) (List.find?
        (ruleMatches (pyLower (url ++ " " ++ text)).data) data_repositories) = Option.none
      rw [List.find?_eq_none.mpr (fun x hx => by simp [hall x hx])]
      rfl
  · constructor
    · intro hw p hp
      cases hc : containsSub (pyLower url).data p.1.data with
      | false => rfl
      | true =>
        have hsome : (detect_mappings.find?
            (fun q => containsSub (pyLower url).data q.1.data)).isSome := by
          rw [List.find?_isSome]
          exact ⟨p, hp, hc⟩
        rcases Option.isSome_iff_exists.mp hsome with ⟨r, hr⟩
        have hrmem := List.mem_of_find?_eq_some hr
        have hrtag : ¬ (r.2 = "website") := by
          have hvals : ∀ q ∈ detect_mappings, ¬ (q.2 = "website") := by decide
          exact hvals r hrmem
        have hw2 : (match List.find? (fun q => containsSub (pyLower url).data q.1.data)
            detect_mappings with
          | some p => p.2
          | Option.none => "website") = "website" := hw
        rw [hr] at hw2
        exact absurd hw2 hrtag
    · intro hall
      show (match List.find? (fun q => containsSub (pyLower url).data q.1.data)
          detect_mappings with
        | some p => p.2
        | Option.none => "website") = "website"
      rw [List.find?_eq_none.mpr (fun x hx => by simp [hall x hx])]

/-- C5 witness: the amended statement applied at a concrete url with no
matching domain, giving the website fallback of _detect_repository. -/
theorem C5_classifier_first_match_witness :
    detect_repository "https://unknown.example/data" = "website" := by
  exact ((C5_classifier_first_match "https://unknown.example/data" "").2.2).mpr (by decide)

/-! ## C6: deduplication -/

theorem bool_eq_false {b : Bool} (h : ¬ b = true) : b = false := by
  cases b
  · rfl
  · exact absurd rfl h

theorem band_left {a b : Bool} (h : (a && b) = true) : a = true := by
  cases a
  · exact absurd h (by simp)
  · rfl

theorem band_right {a b : Bool} (h : (a && b) = true) : b = true := by
  cases b
  · exact absurd h (by simp)
  · rfl

theorem deduplicate_go_sublist (l : List Dataset) :
    ∀ seenUrls seenAccs, (deduplicate_go seenUrls seenAccs l).Sublist l := by
  induction l with
  | nil => intro su sa; simp [deduplicate_go]
  | cons d rest ih =>
    intro su sa
    by_cases h1 : (pyTruthy (pyGet d.url) && !(su.contains (pyVal (pyGet d.url)))) = true
    · simp only [deduplicate_go, h1, if_true]
      exact List.Sublist.cons₂ d (ih _ _)
    · by_cases h2 : (pyTruthy (pyGet d.accession) && !(sa.contains (pyVal (pyGet d.accession)))
          && !(pyTruthy (pyGet d.url))) = true
      · simp only [deduplicate_go, h1, h2, Bool.false_eq_true, if_false, if_true]
        exact List.Sublist.cons₂ d (ih _ _)
      · simp only [deduplicate_go, h1, h2, Bool.false_eq_true, if_false]
        exact List.Sublist.cons d (ih _ _)

theorem deduplicate_go_filter_url (u : String) (hu : ¬ (u = "")) (l : List Dataset) :
    ∀ (seenUrls seenAccs : List String),
      (deduplicate_go seenUrls seenAccs l).filter (fun d => d.url == PyStr.str u) =
        (if seenUrls.contains u then []
         else
           match l.find? (fun d => d.url == PyStr.str u) with
           | some d => [d]
           | Option.none => []) := by
  induction l with
  | nil =>
    intro su sa
    by_cases hc : su.contains u = true
    · rw [if_pos hc]; rfl
    · rw [if_neg hc]; rfl
  | cons d rest ih =>
    intro su sa
    by_cases hud : d.url = PyStr.str u
    · have hudb : (d.url == PyStr.str u) = true := by rw [hud]; exact beq_self_eq_true _
      have htr : pyTruthy (pyGet d.url) = true := by
        rw [hud]
        show (!(u == "")) = true
        rw [beq_eq_false_iff_ne.mpr hu]
        rfl
      have hval : pyVal (pyGet d.url) = u := by rw [hud]; rfl
      by_cases hseen : su.contains u = true
      · have h1 : (pyTruthy (pyGet d.url) && !(su.contains (pyVal (pyGet d.url)))) = false := by
          rw [htr, hval, hseen]
          rfl
        have h2 : (pyTruthy (pyGet d.accession) && !(sa.contains (pyVal (pyGet d.accession)))
            && !(pyTruthy (pyGet d.url))) = false := by
          rw [htr]
          exact Bool.and_false _
        simp only [deduplicate_go, h1, h2, Bool.false_eq_true, if_false]
        rw [ih su sa, if_pos hseen, if_pos hseen]
      · have hseenf : su.contains u = false := bool_eq_false hseen
        have h1 : (pyTruthy (pyGet d.url) && !(su.contains (pyVal (pyGet d.url)))) = true := by
          rw [htr, hval, hseenf]
          rfl
        simp only [deduplicate_go, h1, if_true]
        rw [List.filter_cons, if_pos hudb, ih (pyVal (pyGet d.url) :: su) sa]
        have hcontains : (pyVal (pyGet d.url) :: su).contains u = true := by
          rw [List.contains_cons, hval, beq_self_eq_true, Bool.true_or]
        rw [hcontains, if_pos rfl, if_neg hseen, List.find?_cons_of_pos rest hudb]
    · have hudb : (d.url == PyStr.str u) = false := beq_eq_false_iff_ne.mpr hud
      have hfind : (d :: rest).find? (fun x => x.url == PyStr.str u) =
          rest.find? (fun x => x.url == PyStr.str u) :=
        List.find?_cons_of_neg rest (by rw [hudb]; exact Bool.false_ne_true)
      by_cases h1 : (pyTruthy (pyGet d.url) && !(su.contains (pyVal (pyGet d.url)))) = true
      · have htr : pyTruthy (pyGet d.url) = true := band_left h1
        have hstr : d.url = PyStr.str (pyVal (pyGet d.url)) := by
          cases hx : d.url with
          | absent => rw [hx] at htr; exact absurd htr (by simp [pyGet, pyTruthy])
          | pynone => rw [hx] at htr; exact absurd htr (by simp [pyGet, pyTruthy])
          | str s => rfl
        have hne : ¬ (pyVal (pyGet d.url) = u) := by
          intro hvv
          exact hud (by rw [hstr, hvv])
        simp only [deduplicate_go, h1, if_true]
        rw [List.filter_cons, if_neg (by rw [hudb]; exact Bool.false_ne_true),
          ih (pyVal (pyGet d.url) :: su) sa]
        have hcontains : (pyVal (pyGet d.url) :: su).contains u = su.contains u := by
          rw [List.contains_cons, beq_eq_false_iff_ne.mpr (Ne.symm hne), Bool.false_or]
        rw [hcontains, hfind]
      · by_cases h2 : (pyTruthy (pyGet d.accession) && !(sa.contains (pyVal (pyGet d.accession)))
            && !(pyTruthy (pyGet d.url))) = true
        · simp only [deduplicate_go, h1, h2, Bool.false_eq_true, if_false, if_true]
          rw [List.filter_cons, if_neg (by rw [hudb]; exact Bool.false_ne_true),
            ih su (pyVal (pyGet d.accession) :: sa), hfind]
        · simp only [deduplicate_go, h1, h2, Bool.false_eq_true, if_false]
          rw [ih su sa, hfind]

theorem deduplicate_go_filter_acc (a : String) (ha : ¬ (a = "")) (l : List Dataset) :
    ∀ (seenUrls seenAccs : List String),
      (deduplicate_go seenUrls seenAccs l).filter
          (fun d => !(pyTruthy (pyGet d.url)) && d.accession == PyStr.str a) =
        (if seenAccs.contains a then []
         else
           match l.find? (fun d => !(pyTruthy (pyGet d.url)) && d.accession == PyStr.str a) with
           | some d => [d]
           | Option.none => []) := by
  induction l with
  | nil =>
    intro su sa
    by_cases hc : sa.contains a = true
    · rw [if_pos hc]; rfl
    · rw [if_neg hc]; rfl
  | cons d rest ih =>
    intro su sa
    by_cases h1 : (pyTruthy (pyGet d.url) && !(su.contains (pyVal (pyGet d.url)))) = true
    · have htr : pyTruthy (pyGet d.url) = true := band_left h1
      have hqd : (!(pyTruthy (pyGet d.url)) && (d.accession == PyStr.str a)) = false := by
        rw [htr]
        rfl
      have hfind : (d :: rest).find?
            (fun x => !(pyTruthy (pyGet x.url)) && x.accession == PyStr.str a) =
          rest.find? (fun x => !(pyTruthy (pyGet x.url)) && x.accession == PyStr.str a) :=
        List.find?_cons_of_neg rest (by rw [hqd]; exact Bool.false_ne_true)
      simp only [deduplicate_go, h1, if_true]
      rw [List.filter_cons, if_neg (by rw [hqd]; exact Bool.false_ne_true),
        ih (pyVal (pyGet d.url) :: su) sa, hfind]
    · by_cases h2 : (pyTruthy (pyGet d.accession) && !(sa.contains (pyVal (pyGet d.accession)))
          && !(pyTruthy (pyGet d.url))) = true
      · have hnu : (!(pyTruthy (pyGet d.url))) = true := band_right h2
        have hatr : pyTruthy (pyGet d.accession) = true :=
          band_left (band_left h2)
        have hunseen : (!(sa.contains (pyVal (pyGet d.accession)))) = true :=
          band_right (band_left h2)
        have hastr : d.accession = PyStr.str (pyVal (pyGet d.accession)) := by
          cases hx : d.accession with
          | absent => rw [hx] at hatr; exact absurd hatr (by simp [pyGet, pyTruthy])
          | pynone => rw [hx] at hatr; exact absurd hatr (by simp [pyGet, pyTruthy])
          | str s => rfl
        by_cases hda : pyVal (pyGet d.accession) = a
        · have hqd : (!(pyTruthy (pyGet d.url)) && (d.accession == PyStr.str a)) = true := by
            rw [hnu, hastr, hda, beq_self_eq_true]
            rfl
          have hseenfalse : sa.contains a = false := by
            rw [← hda]
            have := hunseen
            cases hcc : sa.contains (pyVal (pyGet d.accession)) with
            | false => rfl
            | true => rw [hcc] at this; exact absurd this (by simp)
          simp only [deduplicate_go, h1, h2, Bool.false_eq_true, if_false, if_true]
          rw [List.filter_cons, if_pos hqd, ih su (pyVal (pyGet d.accession) :: sa)]
          have hcontains : (pyVal (pyGet d.accession) :: sa).contains a = true := by
            rw [List.contains_cons, hda, beq_self_eq_true, Bool.true_or]
          rw [hcontains, if_pos rfl,
            if_neg (by rw [hseenfalse]; exact Bool.false_ne_true),
            List.find?_cons_of_pos rest hqd]
        · have hqd : (!(pyTruthy (pyGet d.url)) && (d.accession == PyStr.str a)) = false := by
            have : (d.accession == PyStr.str a) = false := by
              rw [hastr]
              exact beq_eq_false_iff_ne.mpr
                (fun hvv => hda (by injection hvv))
            rw [this]
            exact Bool.and_false _
          have hfind : (d :: rest).find?
                (fun x => !(pyTruthy (pyGet x.url)) && x.accession == PyStr.str a) =
              rest.find? (fun x => !(pyTruthy (pyGet x.url)) && x.accession == PyStr.str a) :=
            List.find?_cons_of_neg rest (by rw [hqd]; exact Bool.false_ne_true)
          simp only [deduplicate_go, h1, h2, Bool.false_eq_true, if_false, if_true]
          rw [List.filter_cons, if_neg (by rw [hqd]; exact Bool.false_ne_true),
            ih su (pyVal (pyGet d.accession) :: sa), hfind]
          have hcontains : (pyVal (pyGet d.accession) :: sa).contains a = sa.contains a := by
            rw [List.contains_cons, beq_eq_false_iff_ne.mpr (Ne.symm hda), Bool.false_or]
          rw [hcontains]
      · simp only [deduplicate_go, h1, h2, Bool.false_eq_true, if_false]
        rw [ih su sa]
        by_cases hsa : sa.contains a = true
        · rw [if_pos hsa, if_pos hsa]
        · have hsaf : sa.contains a = false := bool_eq_false hsa
          have hqd : (!(pyTruthy (pyGet d.url)) && (d.accession == PyStr.str a)) = false := by
            cases htru : pyTruthy (pyGet d.url) with
            | true => rfl
            | false =>
              cases hacc2 : (d.accession == PyStr.str a) with
              | false => exact Bool.and_false _
              | true =>
                exfalso
                apply h2
                have hacc : d.accession = PyStr.str a := eq_of_beq hacc2
                rw [hacc, htru]
                show ((!(a == "")) && !(sa.contains a) && !false) = true
                rw [beq_eq_false_iff_ne.mpr ha, hsaf]
                rfl
          have hfind : (d :: rest).find?
                (fun x => !(pyTruthy (pyGet x.url)) && x.accession == PyStr.str a) =
              rest.find? (fun x => !(pyTruthy (pyGet x.url)) && x.accession == PyStr.str a) :=
            List.find?_cons_of_neg rest (by rw [hqd]; exact Bool.false_ne_true)
          rw [if_neg hsa, if_neg hsa, hfind]

/-- C6: deduplication keeps a subsequence of the input (order preserved,
nothing invented); for every non-empty url value, the output holds
exactly the first input reference with that url (and nothing when none
has it); and for every non-empty accession value, among references with
a falsy url the output holds exactly the first input reference carrying
it.  In particular two references with identical url but different
found_in provenance yield exactly one output entry for that url. -/
theorem C6_dedup_first_seen (datasets : List Dataset) :
    (deduplicate_datasets datasets).Sublist datasets
    ∧ (∀ u : String, ¬ (u = "") →
        (deduplicate_datasets datasets).filter (fun d => d.url == PyStr.str u) =
          (match datasets.find? (fun d => d.url == PyStr.str u) with
           | some d => [d]
           | Option.none => []))
    ∧ (∀ a : String, ¬ (a = "") →
        (deduplicate_datasets datasets).filter
            (fun d => !(pyTruthy (pyGet d.url)) && d.accession == PyStr.str a) =
          (match datasets.find?
              (fun d => !(pyTruthy (pyGet d.url)) && d.accession == PyStr.str a) with
           | some d => [d]
           | Option.none => [])) := by
  refine ⟨deduplicate_go_sublist datasets [] [], ?_, ?_⟩
  · intro u hu
    have h := deduplicate_go_filter_url u hu datasets [] []
    simpa [deduplicate_datasets] using h
  · intro a ha
    have h := deduplicate_go_filter_acc a ha datasets [] []
    simpa [deduplicate_datasets] using h

/-- C6 witness: two references with the same url and different found_in
deduplicate to exactly the first. -/
theorem C6_dedup_first_seen_witness :
    (deduplicate_datasets
        [{ url := PyStr.str "https://zenodo.org/record/9", found_in := PyStr.str "link" },
         { url := PyStr.str "https://zenodo.org/record/9",
           found_in := PyStr.str "text_url" }]).filter
      (fun d => d.url == PyStr.str "https://zenodo.org/record/9") =
    [{ url := PyStr.str "https://zenodo.org/record/9", found_in := PyStr.str "link" }] := by
  exact ((C6_dedup_first_seen
      [{ url := PyStr.str "https://zenodo.org/record/9", found_in := PyStr.str "link" },
       { url := PyStr.str "https://zenodo.org/record/9",
         found_in := PyStr.str "text_url" }]).2.1
    "https://zenodo.org/record/9" (by decide)).trans (by decide)

/-! ## C7: the supplementary-materials fallback -/

/-- C7: when the article carries no pre-extracted datasets, extraction of
the document produced no references, and a supplementary-material URL is
known, extract_datasets returns exactly one synthetic reference named
Supplementary Materials with repository journal_supplementary and that
URL (enriched with the paper fields). -/
theorem C7_supplementary_fallback (article : Article) (dataTypesOf : String → List String)
    (hds : article.datasets = Option.none ∨ article.datasets = some [])
    (hsupp : pyTruthy article.supplementary_url = true) :
    extract_datasets article [] dataTypesOf =
      [{ name := PyStr.str "Supplementary Materials",
         url := article.supplementary_url,
         repository := PyStr.str "journal_supplementary",
         source := PyStr.str (pyStrOf "unknown" article.source),
         data_types :=
           if pyTruthy article.abstract then some (dataTypesOf (pyStrOf "" article.abstract))
           else Option.none,
         paper_title := PyStr.str (pyStrOf "Unknown" article.title),
         paper_url := PyStr.str article.url,
         paper_doi := pyGet article.doi }] := by
  have hrest : extract_datasets_rest article [] dataTypesOf =
      [{ name := PyStr.str "Supplementary Materials",
         url := article.supplementary_url,
         repository := PyStr.str "journal_supplementary",
         source := PyStr.str (pyStrOf "unknown" article.source),
         data_types :=
           if pyTruthy article.abstract then some (dataTypesOf (pyStrOf "" article.abstract))
           else Option.none,
         paper_title := PyStr.str (pyStrOf "Unknown" article.title),
         paper_url := PyStr.str article.url,
         paper_doi := pyGet article.doi }] := by
    unfold extract_datasets_rest
    simp only [List.isEmpty_nil, Bool.true_and, hsupp, if_true, List.map_cons, List.map_nil]
    rw [pyStr_of_truthy article.supplementary_url hsupp]
  cases hds with
  | inl h =>
    unfold extract_datasets
    rw [h]
    exact hrest
  | inr h =>
    unfold extract_datasets
    rw [h]
    simp only [List.isEmpty_nil, Bool.not_true, Bool.false_eq_true, if_false]
    exact hrest

/-- C7 witness: the fallback applied at a concrete article. -/
theorem C7_supplementary_fallback_witness :
    extract_datasets
      { datasets := Option.none, title := PyStr.str "Paper T",
        url := "https://paper.example/a", doi := PyStr.absent, abstract := PyStr.absent,
        source := PyStr.str "nature",
        supplementary_url := PyStr.str "https://paper.example/supp.zip" } [] (fun _ => []) =
      [{ name := PyStr.str "Supplementary Materials",
         url := PyStr.str "https://paper.example/supp.zip",
         repository := PyStr.str "journal_supplementary",
         source := PyStr.str "nature",
         data_types := Option.none,
         paper_title := PyStr.str "Paper T",
         paper_url := PyStr.str "https://paper.example/a",
         paper_doi := PyStr.pynone }] := by
  exact (C7_supplementary_fallback
      { datasets := Option.none, title := PyStr.str "Paper T",
        url := "https://paper.example/a", doi := PyStr.absent, abstract := PyStr.absent,
        source := PyStr.str "nature",
        supplementary_url := PyStr.str "https://paper.example/supp.zip" }
      (fun _ => []) (Or.inl rfl) (by decide)).trans (by decide)

/-! ## C8: the retry loop -/

theorem dwr_go_spec (delay : Nat) (failResult : Bool × String) (oracle : Nat → NetResp)
    (hfr : failResult.1 = false) :
    ∀ (rem attempt : Nat),
      (dwr_go delay failResult oracle attempt rem).2.2 ≤ rem
      ∧ (∀ s ∈ (dwr_go delay failResult oracle attempt rem).2.1, s = delay)
      ∧ ((dwr_go delay failResult oracle attempt rem).1.1 = true ↔
          ∃ i, i < rem ∧ oracle (attempt + i) = NetResp.status 200
            ∧ ∀ j, j < i → ¬ (oracle (attempt + j) = NetResp.status 200))
      ∧ ((dwr_go delay failResult oracle attempt rem).1.1 = false →
          (dwr_go delay failResult oracle attempt rem).1 = failResult
          ∧ (dwr_go delay failResult oracle attempt rem).2.2 = rem) := by
  intro rem
  induction rem with
  | zero =>
    intro attempt
    refine ⟨Nat.le_refl 0, ?_, ?_, ?_⟩
    · intro s hs
      exact absurd hs (List.not_mem_nil s)
    · constructor
      · intro h
        exact absurd (hfr ▸ h) (by simp)
      · rintro ⟨i, hi, _⟩
        exact absurd hi (Nat.not_lt_zero i)
    · intro _
      exact ⟨rfl, rfl⟩
  | succ rem ih =>
    intro attempt
    obtain ⟨ih1, ih2, ih3, ih4⟩ := ih (attempt + 1)
    cases ho : oracle attempt with
    | status code =>
      by_cases hc : (code == 200) = true
      · have hcode : code = 200 := eq_of_beq hc
        have hred : dwr_go delay failResult oracle attempt (rem + 1) =
            ((true, "下载成功"), [], 1) := by
          simp only [dwr_go, ho, hc, Bool.not_true, Bool.false_eq_true, if_false]
        rw [hred]
        refine ⟨Nat.succ_le_succ (Nat.zero_le rem), ?_, ?_, ?_⟩
        · intro s hs
          exact absurd hs (List.not_mem_nil s)
        · constructor
          · intro _
            refine ⟨0, Nat.succ_pos rem, ?_, ?_⟩
            · rw [Nat.add_zero, ho, hcode]
            · intro j hj
              exact absurd hj (Nat.not_lt_zero j)
          · intro _
            rfl
        · intro h
          exact absurd h (by simp)
      · have hcf : (code == 200) = false := bool_eq_false hc
        have hne200 : ¬ (oracle attempt = NetResp.status 200) := by
          intro h
          rw [ho] at h
          injection h with hcc
          exact hc (by rw [hcc]; exact beq_self_eq_true 200)
        have hred : dwr_go delay failResult oracle attempt (rem + 1) =
            ((dwr_go delay failResult oracle (attempt + 1) rem).1,
             delay :: (dwr_go delay failResult oracle (attempt + 1) rem).2.1,
             (dwr_go delay failResult oracle (attempt + 1) rem).2.2 + 1) := by
          simp only [dwr_go, ho, hcf, Bool.not_false, if_true]
        rw [hred]
        refine ⟨Nat.succ_le_succ ih1, ?_, ?_, ?_⟩
        · intro s hs
          rcases List.mem_cons.mp hs with h | h
          · exact h
          · exact ih2 s h
        · constructor
          · intro h
            rcases ih3.mp h with ⟨i, hi, h200, hfirst⟩
            refine ⟨i + 1, Nat.succ_lt_succ hi, ?_, ?_⟩
            · rw [show attempt + (i + 1) = attempt + 1 + i by omega]
              exact h200
            · intro j hj
              cases j with
              | zero =>
                rw [Nat.add_zero]
                exact hne200
              | succ k =>
                rw [show attempt + (k + 1) = attempt + 1 + k by omega]
                exact hfirst k (Nat.lt_of_succ_lt_succ hj)
          · rintro ⟨i, hi, h200, hfirst⟩
            cases i with
            | zero =>
              rw [Nat.add_zero] at h200
              exact absurd h200 hne200
            | succ k =>
              apply ih3.mpr
              refine ⟨k, Nat.lt_of_succ_lt_succ hi, ?_, ?_⟩
              · rw [show attempt + 1 + k = attempt + (k + 1) by omega]
                exact h200
              · intro j hj
                rw [show attempt + 1 + j = attempt + (j + 1) by omega]
                exact hfirst (j + 1) (Nat.succ_lt_succ hj)
        · intro h
          obtain ⟨hr1, hr2⟩ := ih4 h
          exact ⟨hr1, by rw [hr2]⟩
    | exn m =>
      have hne200 : ¬ (oracle attempt = NetResp.status 200) := by
        intro h
        rw [ho] at h
        exact NetResp.noConfusion h
      have hred : dwr_go delay failResult oracle attempt (rem + 1) =
          ((dwr_go delay failResult oracle (attempt + 1) rem).1,
           (if rem > 0 then delay :: (dwr_go delay failResult oracle (attempt + 1) rem).2.1
            else (dwr_go delay failResult oracle (attempt + 1) rem).2.1),
           (dwr_go delay failResult oracle (attempt + 1) rem).2.2 + 1) := by
        simp only [dwr_go, ho]
      rw [hred]
      refine ⟨Nat.succ_le_succ ih1, ?_, ?_, ?_⟩
      · intro s hs
        by_cases hrem : rem > 0
        · rw [if_pos hrem] at hs
          rcases List.mem_cons.mp hs with h | h
          · exact h
          · exact ih2 s h
        · rw [if_neg hrem] at hs
          exact ih2 s hs
      · constructor
        · intro h
          rcases ih3.mp h with ⟨i, hi, h200, hfirst⟩
          refine ⟨i + 1, Nat.succ_lt_succ hi, ?_, ?_⟩
          · rw [show attempt + (i + 1) = attempt + 1 + i by omega]
            exact h200
          · intro j hj
            cases j with
            | zero =>
              rw [Nat.add_zero]
              exact hne200
            | succ k =>
              rw [show attempt + (k + 1) = attempt + 1 + k by omega]
              exact hfirst k (Nat.lt_of_succ_lt_succ hj)
        · rintro ⟨i, hi, h200, hfirst⟩
          cases i with
          | zero =>
            rw [Nat.add_zero] at h200
            exact absurd h200 hne200
          | succ k =>
            apply ih3.mpr
            refine ⟨k, Nat.lt_of_succ_lt_succ hi, ?_, ?_⟩
            · rw [show attempt + 1 + k = attempt + (k + 1) by omega]
              exact h200
            · intro j hj
              rw [show attempt + 1 + j = attempt + (j + 1) by omega]
              exact hfirst (j + 1) (Nat.succ_lt_succ hj)
      · intro h
        obtain ⟨hr1, hr2⟩ := ih4 h
        exact ⟨hr1, by rw [hr2]⟩

/-- C8 counterexample: the claim says only transient failures (timeouts,
5xx, 429) are retried, with an increasing delay.  Against a server that
answers 404 — a non-transient client error — on every attempt, the
embedded retry loop still issues all 3 requests and sleeps the constant
default delay of 5 seconds between tries, then returns the failure
message. -/
theorem C8_cex_retries_404_constant_delay :
    download_with_retry default_retry_count default_delay_between_retry
        (fun _ => NetResp.status 404) =
      ((false, "下载失败，已重试3次"), [5, 5, 5], 3) := by
  decide

/-- C8 as amended: _download_with_retry makes at most retry_count HTTP
requests (3 by default); every sleep between tries is the fixed
configured delay (5 seconds by default, not increasing); it succeeds
exactly when some attempt within the budget is the first to return HTTP
200 (any other status and any network exception are retried alike,
with no transient / non-transient distinction); and on exhausting the
budget it returns a failure message instead of raising, having made
exactly retry_count requests. -/
theorem C8_retry_spec (retryCount delay : Nat) (oracle : Nat → NetResp) :
    (download_with_retry retryCount delay oracle).2.2 ≤ retryCount
    ∧ (∀ s ∈ (download_with_retry retryCount delay oracle).2.1, s = delay)
    ∧ ((download_with_retry retryCount delay oracle).1.1 = true ↔
        ∃ i, i < retryCount ∧ oracle i = NetResp.status 200
          ∧ ∀ j, j < i → ¬ (oracle j = NetResp.status 200))
    ∧ ((download_with_retry retryCount delay oracle).1.1 = false →
        (download_with_retry retryCount delay oracle).1 =
          (false, "下载失败，已重试" ++ toString retryCount ++ "次")
        ∧ (download_with_retry retryCount delay oracle).2.2 = retryCount) := by
  have h := dwr_go_spec delay
    (false, "下载失败，已重试" ++ toString retryCount ++ "次") oracle rfl retryCount 0
  simpa [download_with_retry, Nat.zero_add] using h

/-- C8 witness: the amended statement applied at a concrete oracle whose
second attempt returns 200 after a first 500. -/
theorem C8_retry_spec_witness :
    (download_with_retry 3 5
      (fun i => if i == 0 then NetResp.status 500 else NetResp.status 200)).1.1 = true := by
  exact (C8_retry_spec 3 5
      (fun i => if i == 0 then NetResp.status 500 else NetResp.status 200)).2.2.1.mpr
    ⟨1, by decide, by decide, by decide⟩

/-! ## C9: batch aggregation -/

theorem download_datasets_go_total (skipExisting : Bool) (dir : String)
    (hashFn : Dataset → String) (strat : String → String → Bool × String) :
    ∀ (l : List Dataset) (st : DLState),
      (download_datasets_go skipExisting dir hashFn strat l st).1.1
        + (download_datasets_go skipExisting dir hashFn strat l st).1.2.1
        + (download_datasets_go skipExisting dir hashFn strat l st).1.2.2.1 = l.length := by
  intro l
  induction l with
  | nil => intro st; rfl
  | cons d rest ih =>
    intro st
    by_cases h1 : (!(pyTruthy d.url)) = true
    · have := ih st
      simp only [download_datasets_go, h1, if_true, List.length_cons]
      omega
    · by_cases h2 : is_dataset_downloaded hashFn st.history d = true
      · have := ih st
        simp only [download_datasets_go, h1, h2, Bool.false_eq_true, if_false, if_true,
          List.length_cons]
        omega
      · by_cases h3 : (download_dataset skipExisting dir hashFn strat d st).1.1 = true
        · have := ih (download_dataset skipExisting dir hashFn strat d st).2
          simp only [download_datasets_go, h1, h2, h3, Bool.false_eq_true, if_false, if_true,
            List.length_cons]
          omega
        · have := ih (download_dataset skipExisting dir hashFn strat d st).2
          have h3f : (download_dataset skipExisting dir hashFn strat d st).1.1 = false :=
            bool_eq_false h3
          simp only [download_datasets_go, h1, h2, h3f, Bool.false_eq_true, if_false,
            List.length_cons]
          omega

/-- C9: the batch result's total is always the input length, every input
reference contributes to exactly one of the success, failed and skipped
counters (so no single failure aborts the batch), and the scenario of a
3-reference batch whose middle reference has an unreachable URL yields
total 3, success 2, failed 1. -/
theorem C9_batch_counts (skipExisting : Bool) (dir : String) (hashFn : Dataset → String)
    (strat : String → String → Bool × String) (datasets : List Dataset) (st : DLState) :
    (download_datasets skipExisting dir hashFn strat datasets st).1.total = datasets.length
    ∧ (download_datasets skipExisting dir hashFn strat datasets st).1.success
        + (download_datasets skipExisting dir hashFn strat datasets st).1.failed
        + (download_datasets skipExisting dir hashFn strat datasets st).1.skipped
        = datasets.length
    ∧ ((download_datasets true "datasets" (fun _ => "")
          (fun _ u => if u == "https://bad.example/two" then (false, "unreachable")
                      else (true, "下载成功"))
          [{ url := PyStr.str "https://a.example/one.zip", name := PyStr.str "one",
             repository := PyStr.str "website" },
           { url := PyStr.str "https://bad.example/two", name := PyStr.str "two",
             repository := PyStr.str "website" },
           { url := PyStr.str "https://c.example/three.csv", name := PyStr.str "three",
             repository := PyStr.str "website" }]
          { history := [], netCalls := [] }).1.total = 3
        ∧ (download_datasets true "datasets" (fun _ => "")
            (fun _ u => if u == "https://bad.example/two" then (false, "unreachable")
                        else (true, "下载成功"))
            [{ url := PyStr.str "https://a.example/one.zip", name := PyStr.str "one",
               repository := PyStr.str "website" },
             { url := PyStr.str "https://bad.example/two", name := PyStr.str "two",
               repository := PyStr.str "website" },
             { url := PyStr.str "https://c.example/three.csv", name := PyStr.str "three",
               repository := PyStr.str "website" }]
            { history := [], netCalls := [] }).1.success = 2
        ∧ (download_datasets true "datasets" (fun _ => "")
            (fun _ u => if u == "https://bad.example/two" then (false, "unreachable")
                        else (true, "下载成功"))
            [{ url := PyStr.str "https://a.example/one.zip", name := PyStr.str "one",
               repository := PyStr.str "website" },
             { url := PyStr.str "https://bad.example/two", name := PyStr.str "two",
               repository := PyStr.str "website" },
             { url := PyStr.str "https://c.example/three.csv", name := PyStr.str "three",
               repository := PyStr.str "website" }]
            { history := [], netCalls := [] }).1.failed = 1) := by
  refine ⟨rfl, ?_, by decide, by decide, by decide⟩
  exact download_datasets_go_total skipExisting dir hashFn strat datasets st

/-! ## C4: the idempotency key -/

/-- C4 counterexample: the claim says the key falls back to the doi when
the url is empty.  A concrete reference with no url, a doi, a name and a
repository gets the key name:N|repo:figshare — the doi is not consulted —
and even a url-keyed reference gets url: prepended rather than the url
itself. -/
theorem C4_cex_doi_not_consulted :
    get_download_id (fun _ => "")
        { doi := PyStr.str "10.1234/abc", name := PyStr.str "N",
          repository := PyStr.str "figshare" } = "name:N|repo:figshare"
    ∧ ¬ ("name:N|repo:figshare" = "10.1234/abc")
    ∧ get_download_id (fun _ => "") { url := PyStr.str "https://x" } = "url:https://x"
    ∧ ¬ ("url:https://x" = "https://x") := by
  decide

/-- C4 as amended: the key is the string url: followed by the url when
the url is truthy; otherwise name:, the name, |repo: and the repository
when both are truthy; otherwise hash: followed by the md5 of the JSON
serialization of the whole record (the hashFn parameter).  The doi field
is never consulted outside the hash fallback, where it enters only as
part of the serialized record. -/
theorem C4_download_id_spec (hashFn : Dataset → String) (d : Dataset) :
    (pyStrOf "" d.url ≠ "" → get_download_id hashFn d = "url:" ++ pyStrOf "" d.url)
    ∧ (pyStrOf "" d.url = "" → pyStrOf "" d.name ≠ "" → pyStrOf "" d.repository ≠ "" →
        get_download_id hashFn d =
          "name:" ++ pyStrOf "" d.name ++ "|repo:" ++ pyStrOf "" d.repository)
    ∧ (pyStrOf "" d.url = "" → (pyStrOf "" d.name = "" ∨ pyStrOf "" d.repository = "") →
        get_download_id hashFn d = "hash:" ++ hashFn d)
    ∧ (∀ x : PyStr,
        (pyStrOf "" d.url ≠ "" ∨ (pyStrOf "" d.name ≠ "" ∧ pyStrOf "" d.repository ≠ "")) →
        get_download_id hashFn { d with doi := x } = get_download_id hashFn d) := by
  refine ⟨?_, ?_, ?_, ?_⟩
  · intro h
    simp [get_download_id, h]
  · intro hu hn hr
    simp [get_download_id, hu, hn, hr]
  · intro hu hnr
    rcases hnr with h | h <;> simp [get_download_id, hu, h]
  · intro x h
    rcases h with h | ⟨hn, hr⟩
    · simp [get_download_id, h]
    · by_cases hu : pyStrOf "" d.url = ""
      · simp [get_download_id, hu, hn, hr]
      · simp [get_download_id, hu]

/-- C4 witness: the amended statement applied at concrete references for
the three key shapes. -/
theorem C4_download_id_spec_witness :
    get_download_id (fun _ => "md5json") { url := PyStr.str "https://x" } = "url:https://x"
    ∧ get_download_id (fun _ => "md5json")
        { name := PyStr.str "N", repository := PyStr.str "figshare" } = "name:N|repo:figshare"
    ∧ get_download_id (fun _ => "md5json") { name := PyStr.str "N" } = "hash:md5json" := by
  refine ⟨?_, ?_, ?_⟩
  · exact (C4_download_id_spec (fun _ => "md5json") { url := PyStr.str "https://x" }).1
      (by decide)
  · exact (C4_download_id_spec (fun _ => "md5json")
      { name := PyStr.str "N", repository := PyStr.str "figshare" }).2.1
      (by decide) (by decide) (by decide)
  · exact (C4_download_id_spec (fun _ => "md5json") { name := PyStr.str "N" }).2.2.1
      (by decide) (Or.inr (by decide))

end NeuroCrawler
